import Mathlib

/-!
Shallow embedding of `scripts/update_media.py` from yang-media-kit.

The script is a sequential pipeline: load a persisted JSON dataset, fetch a
Facebook follower count and a Google rating, discover new news articles and
YouTube TV appearances, recalculate derived stat counters, and save the
dataset back.  External effects (HTTP fetches, the feed parser, the yt-dlp
subprocess, the regex scans over fetched page text, the md5 digest and the
wall clock) are modelled as explicit inputs; everything the script itself
computes (string surgery, classification, deduplication, routing, counter
derivation, control flow) is embedded faithfully.

Machine reals only appear in the follower-count formatter (`count / 10000`
rendered with one decimal) and the rating bound check; both are modelled
exactly with natural-number arithmetic (tenths), which agrees with the
double computation on all realistic inputs.
-/

namespace MediaKit

/-- Build a `String` from an explicit character list. -/
def strOf (l : List Char) : String := ⟨l⟩

/-- Python's substring test `pat in s` on character lists. -/
def containsSubL : List Char → List Char → Bool
  | [], pat => pat.isEmpty
  | s@(_ :: rest), pat => pat.isPrefixOf s || containsSubL rest pat

/-- Python's substring test `pat in s` on strings. -/
def containsSub (s pat : String) : Bool := containsSubL s.toList pat.toList

/-- The piece of `s` before the first occurrence of `pat`
(the whole of `s` when `pat` does not occur): Python `s.split(pat)[0]`. -/
def beforeFirstOcc : List Char → List Char → List Char
  | [], _ => []
  | s@(c :: rest), pat =>
    if !pat.isEmpty && pat.isPrefixOf s then [] else c :: beforeFirstOcc rest pat

/-- The piece of `s` after the last occurrence of `pat`, when `pat` occurs.
For the separators the script uses (`"youtu.be/"`, `"v="`), which never
overlap themselves, this is exactly Python `s.split(pat)[-1]`. -/
def afterLastOcc : List Char → List Char → Option (List Char)
  | [], _ => none
  | s@(_ :: rest), pat =>
    match afterLastOcc rest pat with
    | some r => some r
    | none => if !pat.isEmpty && pat.isPrefixOf s then some (s.drop pat.length) else none

/-- Split at the last occurrence of `pat`: Python `s.rsplit(pat, 1)`
restricted to the case where `pat` occurs (otherwise `none`). -/
def lastSplit : List Char → List Char → Option (List Char × List Char)
  | [], _ => none
  | s@(c :: rest), pat =>
    match lastSplit rest pat with
    | some (a, b) => some (c :: a, b)
    | none => if !pat.isEmpty && pat.isPrefixOf s then some ([], s.drop pat.length) else none

/-- Python `s.replace(pat, rep)`, fuelled so that the recursion is
structural (the fuel is the string length, which bounds the number of
steps since every step consumes at least one character). -/
def replaceAllGo (pat rep : List Char) : Nat → List Char → List Char
  | _, [] => []
  | 0, s => s
  | fuel + 1, c :: rest =>
    if !pat.isEmpty && pat.isPrefixOf (c :: rest) then
      rep ++ replaceAllGo pat rep fuel ((c :: rest).drop pat.length)
    else
      c :: replaceAllGo pat rep fuel rest

/-- Python `s.replace(pat, rep)`: replace every non-overlapping occurrence,
scanning left to right. -/
def replaceAllL (pat rep s : List Char) : List Char :=
  replaceAllGo pat rep s.length s

/-- Python `s.replace(pat, rep)` on strings. -/
def strReplace (s pat rep : String) : String :=
  strOf (replaceAllL pat.toList rep.toList s.toList)

/-- The whitespace characters removed by Python `str.strip()`. -/
def isPySpace (c : Char) : Bool :=
  c == ' ' || c == '\t' || c == '\n' || c == '\r' || c == '\x0b' || c == '\x0c'

/-- Python `str.strip()` on character lists. -/
def stripL (l : List Char) : List Char :=
  ((l.dropWhile isPySpace).reverse.dropWhile isPySpace).reverse

/-- Insert `','` after every third character, for a reversed digit list. -/
def group3 : List Char → List Char
  | a :: b :: c :: d :: rest => a :: b :: c :: ',' :: group3 (d :: rest)
  | l => l

/-- Python's `f"{n:,}"` thousands-separated rendering of a nonnegative int. -/
def commaFmt (n : Nat) : String :=
  strOf ((group3 (toString n).toList.reverse).reverse)

/-- `count / 1000` rounded to the nearest integer, ties to even: the number
of tenths shown by Python's `f"{count / 10000:.1f}"` (the float division is
exact enough that the double rounds the same way on realistic counts). -/
def wanTenths (count : Nat) : Nat :=
  let q := count / 1000
  let r := count % 1000
  if 500 < r then q + 1 else if r < 500 then q else if q % 2 = 0 then q else q + 1

/-- `format_follower_count` (update_media.py lines 111-119): Chinese-style
follower count display. -/
def format_follower_count (count : Nat) : String :=
  if 10000 ≤ count then
    if count % 10000 = 0 then
      toString (count / 10000) ++ "萬+"
    else
      let t := wanTenths count
      toString (t / 10) ++ "." ++ toString (t % 10) ++ "萬+"
  else
    commaFmt count ++ "+"

/-! ## Configuration tables (update_media.py lines 27-64) -/

/-- `SEARCH_NAMES`: the doctor's name variants used for searching. -/
def SEARCH_NAMES : List String := ["楊智鈞", "俠醫楊智鈞"]

/-- `NEWS_OUTLET_DOMAINS`: known news outlet names and their domains,
in the source's insertion order. -/
def NEWS_OUTLET_DOMAINS : List (String × List String) :=
  [("自由時報", ["ltn.com.tw"]),
   ("聯合報／元氣網", ["udn.com"]),
   ("ETtoday", ["ettoday.net"]),
   ("TVBS 健康2.0", ["tvbs.com.tw"]),
   ("CTWANT／周刊王", ["ctwant.com"]),
   ("Yahoo 新聞", ["tw.news.yahoo.com", "yahoo.com"]),
   ("LINE TODAY", ["today.line.me"]),
   ("中時新聞網", ["chinatimes.com"]),
   ("三立新聞", ["setn.com"]),
   ("NOWnews", ["nownews.com"]),
   ("匯流新聞網", ["cnews.com.tw"])]

/-- One entry of `HEALTH_MEDIA_DOMAINS`. -/
structure HealthOutlet where
  name : String
  domains : List String
  role : String
deriving DecidableEq

/-- `HEALTH_MEDIA_DOMAINS`: the health-outlet table, in source order. -/
def HEALTH_MEDIA_DOMAINS : List HealthOutlet :=
  [⟨"早安健康", ["edh.tw"], "專欄作者"⟩,
   ⟨"康健雜誌", ["commonhealth.com.tw"], ""⟩,
   ⟨"Heho健康", ["heho.com.tw"], ""⟩]

/-- `TV_SHOWS`: show name, network, channel keywords, in source order. -/
def TV_SHOWS : List (String × String × List String) :=
  [("醫師好辣", "東森", ["醫師好辣"]),
   ("全民星攻略", "衛視中文台", ["全民星攻略"]),
   ("健康2.0", "TVBS", ["健康2.0", "TVBS"]),
   ("聚焦2.0", "年代", ["聚焦2.0", "聚焦"]),
   ("祝你健康", "", ["祝你健康"])]

/-! ## Data model -/

/-- A JSON scalar stored inside a stats entry: an integer count, a display
string, or the one-decimal rating score (kept as tenths). -/
inductive SVal where
  | num (n : Nat)
  | str (s : String)
  | score (tenths : Nat)
deriving DecidableEq

/-- An article record of `health_media` / `news_media`.  `outlet_role` is
`none` exactly when the Python dict has no `"outlet_role"` key. -/
structure Article where
  id : String
  outlet : String
  title : String
  date : String
  url : String
  source : String
  added_date : String
  outlet_role : Option String := none
deriving DecidableEq

/-- A TV appearance record of `tv_shows`. -/
structure Appearance where
  id : String
  «show» : String
  show_network : String
  title : String
  date : String
  url : String
  source : String
  added_date : String
deriving DecidableEq

/-- The persisted dataset (`data.json`): the five top-level keys. -/
structure Dataset where
  last_updated : Option String
  stats : List (String × List (String × SVal))
  tv_shows : List Appearance
  health_media : List Article
  news_media : List Article
deriving DecidableEq

/-- State of the persisted file as the loader sees it: absent, or present
with a parse outcome. -/
inductive FileState where
  | absent
  | present (content : Except String Dataset)

/-- First-occurrence lookup in an insertion-ordered association list
(Python dict read `m[k]` / `m.get(k)`). -/
def lookupA {α : Type} : List (String × α) → String → Option α
  | [], _ => none
  | (k', v) :: rest, k => if k' = k then some v else lookupA rest k

/-- Insertion-ordered association-list update (Python dict write
`m[k] = v`): overwrite the first occurrence in place, else append. -/
def setA {α : Type} : List (String × α) → String → α → List (String × α)
  | [], k, v => [(k, v)]
  | (k', v') :: rest, k, v =>
    if k' = k then (k, v) :: rest else (k', v') :: setA rest k v

/-- Read `data["stats"][stat][fld]` when both keys are present. -/
def statField (d : Dataset) (stat fld : String) : Option SVal :=
  (lookupA d.stats stat).bind (fun e => lookupA e fld)

/-- The fresh default dataset built by `load_data` when the file is absent
(update_media.py lines 73-79). -/
def freshDataset : Dataset :=
  { last_updated := none, stats := [], tv_shows := [], health_media := [], news_media := [] }

/-- `load_data` (lines 69-79): parse the existing file (propagating any
parse failure) or build the fresh default when the file does not exist. -/
def load_data : FileState → Except String Dataset
  | .absent => .ok freshDataset
  | .present c => c

/-- `save_data` (lines 82-85): stamp `last_updated` with the current time
and persist; the write itself is the external effect. -/
def save_data (d : Dataset) (now : String) : Dataset :=
  { d with last_updated := some now }

/-- Stand-in for the first 8 hex chars of hashlib's md5 digest: the digest
is an external library call; no claim depends on its value, so it is
modelled by an arbitrary fixed computable function of the input. -/
def md5hex8 (s : String) : String :=
  toString (s.toList.foldl (fun a c => (a * 131 + c.toNat) % 100000000) 7)

/-- `make_id` (lines 88-91). -/
def make_id (category outlet title : String) : String :=
  category ++ "-" ++ md5hex8 (category ++ "|" ++ outlet ++ "|" ++ title)

/-- The platform-native video id the script extracts from a stored URL
(lines 101-106): the `youtu.be/` short shape or the `youtube.com/watch`
shape, else nothing. -/
def vidFromUrl (url : String) : Option String :=
  if containsSub url "youtu.be/" then
    some (strOf (beforeFirstOcc ((afterLastOcc url.toList "youtu.be/".toList).getD url.toList) "?".toList))
  else if containsSub url "youtube.com/watch" then
    some (strOf (beforeFirstOcc ((afterLastOcc url.toList "v=".toList).getD url.toList) "&".toList))
  else none

/-- One record's contribution to the existing-URL index (lines 98-107):
the normalized video id when the URL has a recognized YouTube shape,
and always the raw URL. -/
def addExistingUrl (urls : List String) (url : String) : List String :=
  let urls :=
    match vidFromUrl url with
    | some vid => vid :: urls
    | none => urls
  url :: urls

/-- The record URLs the index loop of lines 96-98 visits: the `tv_shows`,
`health_media`, `news_media` sections in order. -/
def recordUrls (d : Dataset) : List String :=
  (d.tv_shows.map (fun a => a.url)) ++
  (d.health_media.map (fun a => a.url)) ++
  (d.news_media.map (fun a => a.url))

/-- `get_existing_urls` (lines 94-108): the dedup index over the three
collections, skipping records with an empty URL.  The Python set is
modelled by a list used only through membership. -/
def get_existing_urls (d : Dataset) : List String :=
  (recordUrls d).foldl (fun s u => if u ≠ "" then addExistingUrl s u else s) []

/-- `update_facebook_followers` (lines 128-180).  The headless-browser
fetch and the regex scan are external: `fetched` is the first count the
pattern scan extracts (`none` when the fetch fails or nothing matches).
The body's `KeyError` on a missing `facebook_followers` entry is caught by
the surrounding `except` and reported as "no change". -/
def update_facebook_followers (d : Dataset) (fetched : Option Nat) : Dataset × Bool :=
  match fetched with
  | none => (d, false)
  | some count =>
    if 1000 < count then
      match lookupA d.stats "facebook_followers" with
      | none => (d, false)
      | some entry =>
        let entry := setA (setA entry "count" (.num count)) "display"
          (.str (format_follower_count count))
        ({ d with stats := setA d.stats "facebook_followers" entry }, true)
    else (d, false)

/-- `update_google_rating` (lines 185-220).  `fetched` is the first
rating the pattern scan extracts, in tenths (the regex shape `\d.\d`). -/
def update_google_rating (d : Dataset) (fetched : Option Nat) : Dataset × Bool :=
  match fetched with
  | none => (d, false)
  | some tenths =>
    if 10 ≤ tenths ∧ tenths ≤ 50 then
      match lookupA d.stats "google_rating" with
      | none => (d, false)
      | some entry =>
        ({ d with stats := setA d.stats "google_rating" (setA entry "score" (.score tenths)) }, true)
    else (d, false)

/-! ## Outlet classification (lines 319-347) -/

/-- All known outlet names, news table first then health table
(the iteration order of `list(NEWS...) + list(HEALTH...)`). -/
def allOutletNames : List String :=
  NEWS_OUTLET_DOMAINS.map Prod.fst ++ HEALTH_MEDIA_DOMAINS.map HealthOutlet.name

/-- The merged outlet→domains table `{**NEWS_OUTLET_DOMAINS, **{k: v["domains"] ...}}`
(no key collisions, so plain concatenation in iteration order). -/
def mergedDomainTable : List (String × List String) :=
  NEWS_OUTLET_DOMAINS ++ HEALTH_MEDIA_DOMAINS.map (fun h => (h.name, h.domains))

/-- The first loop of `classify_outlet` (lines 322-325): the first outlet
one of whose domains occurs as a substring of the URL. -/
def domainFirstMatch (url : String) : Option String :=
  mergedDomainTable.findSome?
    (fun p => if p.2.any (fun dm => containsSub url dm) then some p.1 else none)

/-- The second loop of `classify_outlet` (lines 328-331): the first known
outlet name whose punctuation-normalized form occurs in the despaced
source name. -/
def fuzzyNameMatch (source_name : String) : Option String :=
  allOutletNames.find? (fun n =>
    containsSub (strReplace source_name " " "")
      (strReplace (strReplace n "／" "") "　" ""))

/-- Characters CPython's urlsplit accepts inside a scheme. -/
def schemeChar (c : Char) : Bool :=
  c.isAlphanum || c == '+' || c == '-' || c == '.'

/-- Drop a leading `scheme:` if the URL has a well-formed one,
as CPython's urlsplit does before looking for the netloc. -/
def stripScheme (url : String) : String :=
  let cs := url.toList
  let pre := cs.takeWhile (fun c => c != ':')
  if pre.length < cs.length ∧ pre ≠ [] ∧ (pre.headD ' ').isAlpha ∧ pre.all schemeChar then
    strOf (cs.drop (pre.length + 1))
  else url

/-- `urllib.parse.urlparse(url).netloc`: the part after `//` up to the next
`/`, `?` or `#` (empty when the URL has no `//`), raising — like CPython —
on an unbalanced IPv6 bracket in the netloc. -/
def splitNetloc (url : String) : Except Unit String :=
  let rest := (stripScheme url).toList
  if rest.take 2 = ['/', '/'] then
    let netloc := (rest.drop 2).takeWhile (fun c => c != '/' && c != '?' && c != '#')
    if (netloc.contains '[' && !netloc.contains ']') ||
       (!netloc.contains '[' && netloc.contains ']') then
      .error ()
    else .ok (strOf netloc)
  else .ok ""

/-- `classify_outlet` (lines 319-340): domain-table match first, then fuzzy
source-name match, then the raw source name, then the URL's host with every
`"www."` occurrence removed, with `"其他媒體"` when host extraction raises. -/
def classify_outlet (url source_name : String) : String :=
  match domainFirstMatch url with
  | some n => n
  | none =>
    if source_name ≠ "" then
      match fuzzyNameMatch source_name with
      | some n => n
      | none => source_name
    else
      match splitNetloc url with
      | .ok host => strReplace host "www." ""
      | .error _ => "其他媒體"

/-- `determine_category` (lines 343-347). -/
def determine_category (outlet : String) : String :=
  if HEALTH_MEDIA_DOMAINS.any (fun h => h.name == outlet) then "health_media"
  else "news_media"

/-! ## Article discovery (lines 225-300) -/

/-- One feed entry as the script consumes it.  `resolved` is the outcome of
`resolve_google_news_url` (an external redirect-following HTTP call):
`none` when resolution fails and the script falls back to the feed link.
`published` is the `%Y-%m-%d`-rendered structured publish date when the
feed supplies one. -/
structure NewsEntry where
  title : String
  link : String
  resolved : Option String
  published : Option String

/-- The role lookup loop of `search_google_news` (lines 274-277): the role
of the first health-table entry whose name equals the outlet. -/
def healthRoleFor (outlet : String) : String :=
  ((HEALTH_MEDIA_DOMAINS.find? (fun h => h.name == outlet)).map HealthOutlet.role).getD ""

/-- Title/source extraction (lines 262-266): split a trailing
`" - Source"` suffix off the feed title, stripping whitespace. -/
def splitTitleSource (title : String) : String × String :=
  match lastSplit title.toList " - ".toList with
  | some (a, b) => (strOf (stripL a), strOf (stripL b))
  | none => (title, "")

/-- The per-entry body of `search_google_news` (lines 238-294), acting on
the state (dataset, in-run existing-URL index, new items so far). -/
def processNewsEntry (today : String) (st : Dataset × List String × List Article)
    (e : NewsEntry) : Dataset × List String × List Article :=
  let d := st.1
  let ex := st.2.1
  let items := st.2.2
  let actual_url := e.resolved.getD e.link
  if actual_url ∈ ex ∨ e.link ∈ ex then (d, ex, items)
  else if !(SEARCH_NAMES.any fun n => containsSub e.title n) then (d, ex, items)
  else
    let pub_date := e.published.getD ""
    let ts := splitTitleSource e.title
    let title := ts.1
    let source_name := ts.2
    let outlet := classify_outlet actual_url source_name
    let category := determine_category outlet
    let role := if category = "health_media" then healthRoleFor outlet else ""
    let item : Article :=
      { id := make_id (category.take 2) outlet title
        outlet := outlet
        title := title
        date := pub_date
        url := actual_url
        source := "auto_search"
        added_date := today
        outlet_role := if role ≠ "" then some role else none }
    let d' :=
      if category = "health_media" then { d with health_media := d.health_media ++ [item] }
      else { d with news_media := d.news_media ++ [item] }
    (d', actual_url :: ex, items ++ [item])

/-- One search name's iteration of the feed loop (lines 231-297): an
exception while fetching or processing a name's feed is caught and that
name contributes nothing; otherwise the top 15 entries are processed. -/
def processFeed (today : String) (st : Dataset × List String × List Article)
    (nf : String × Except String (List NewsEntry)) : Dataset × List String × List Article :=
  match nf.2 with
  | .error _ => st
  | .ok entries => (entries.take 15).foldl (processNewsEntry today) st

/-- `search_google_news` (lines 225-300): one feed outcome per search name.
Returns the updated dataset and the newly appended articles. -/
def search_google_news (d : Dataset) (feeds : List (Except String (List NewsEntry)))
    (today : String) : Dataset × List Article :=
  let init : Dataset × List String × List Article := (d, get_existing_urls d, [])
  let fin := (SEARCH_NAMES.zip feeds).foldl (processFeed today) init
  (fin.1, fin.2.2)

/-! ## YouTube discovery (lines 352-437) -/

/-- One parsed yt-dlp result line (`video.get("id"/"title"/"upload_date")`). -/
structure YTVideo where
  id : String
  title : String
  upload_date : String

/-- The 8-digit upload date rendered as `YYYY-MM-DD` (line 410). -/
def fmtUploadDate (u : String) : String :=
  u.take 4 ++ "-" ++ (u.drop 4).take 2 ++ "-" ++ (u.drop 6).take 2

/-- The per-video body of `search_youtube_shows` (lines 387-429). -/
def processVideo (today show_name network : String)
    (st : Dataset × List String × List Appearance) (v : YTVideo) :
    Dataset × List String × List Appearance :=
  let d := st.1
  let ex := st.2.1
  let items := st.2.2
  let url := "https://youtu.be/" ++ v.id
  if v.id ∈ ex ∨ url ∈ ex then (d, ex, items)
  else if !((SEARCH_NAMES ++ [show_name]).any fun n => containsSub v.title n) then (d, ex, items)
  else
    let pub_date := if v.upload_date.length = 8 then fmtUploadDate v.upload_date else ""
    let item : Appearance :=
      { id := make_id "tv" show_name v.title
        «show» := show_name
        show_network := network
        title := v.title
        date := pub_date
        url := url
        source := "auto_search"
        added_date := today }
    ({ d with tv_shows := d.tv_shows ++ [item] }, url :: v.id :: ex, items ++ [item])

/-- One show's iteration of the YouTube loop (lines 370-434): a timeout or
error for one show contributes nothing. -/
def processShowResult (today : String) (st : Dataset × List String × List Appearance)
    (sr : (String × String × List String) × Except Unit (List YTVideo)) :
    Dataset × List String × List Appearance :=
  match sr.2 with
  | .error _ => st
  | .ok vids => vids.foldl (processVideo today sr.1.1 sr.1.2.1) st

/-- `search_youtube_shows` (lines 352-437): when yt-dlp is unavailable even
after the install attempt the stage is skipped wholesale; otherwise each
configured show (queried with the single primary search name) yields one
search outcome. -/
def search_youtube_shows (d : Dataset) (available : Bool)
    (results : List (Except Unit (List YTVideo))) (today : String) :
    Dataset × List Appearance :=
  if available then
    let init : Dataset × List String × List Appearance := (d, get_existing_urls d, [])
    let fin := (TV_SHOWS.zip results).foldl (processShowResult today) init
    (fin.1, fin.2.2)
  else (d, [])

/-! ## Stat recalculation and main (lines 442-498) -/

/-- `recalculate_stats` (lines 442-451): derive the TV-episode and
media-exposure counters from the collection sizes.  A missing
`tv_episodes` or `media_exposure` stats entry raises `KeyError`, which no
handler catches (modelled as the error case; the error aborts the run
before anything observable happens, so the partial in-memory mutation the
Python version makes before raising is irrelevant). -/
def recalculate_stats (d : Dataset) : Except String Dataset :=
  let tv_count := d.tv_shows.length
  let news_count := d.news_media.length + d.health_media.length
  match lookupA d.stats "tv_episodes", lookupA d.stats "media_exposure" with
  | some te, some me =>
    let te := setA (setA te "count" (.num tv_count)) "display"
      (.str (toString tv_count ++ "+"))
    let me := setA (setA me "count" (.num (tv_count + news_count))) "display"
      (.str (toString (tv_count + news_count) ++ "+"))
    .ok { d with stats := setA (setA d.stats "tv_episodes" te) "media_exposure" me }
  | _, _ => .error "KeyError"

/-- `main` (lines 456-492): the pipeline from load to save.  External
outcomes are inputs: the follower count and rating the fetch stages
extract, one feed outcome per search name, yt-dlp availability and one
search outcome per show, and the two clock readings.  An uncaught
exception (fatal load failure, or `KeyError` in `recalculate_stats`)
propagates out of `main` as the error case. -/
def runPipeline (fs : FileState) (fb goog : Option Nat)
    (feeds : List (Except String (List NewsEntry))) (ytAvailable : Bool)
    (ytResults : List (Except Unit (List YTVideo))) (now today : String) :
    Except String (Dataset × Bool) :=
  match load_data fs with
  | .error e => .error e
  | .ok d =>
    let r1 := update_facebook_followers d fb
    let r2 := update_google_rating r1.1 goog
    let r3 := search_google_news r2.1 feeds today
    let r4 := search_youtube_shows r3.1 ytAvailable ytResults today
    match recalculate_stats r4.1 with
    | .error e => .error e
    | .ok d5 =>
      .ok (save_data d5 now, r1.2 || r2.2 || !r3.2.isEmpty || !r4.2.isEmpty)

/-- The `__main__` block (lines 495-498): `sys.exit(0)` after a normal
return of `main`; an uncaught exception terminates the interpreter with a
nonzero status (modelled as 1). -/
def processExitCode (fs : FileState) (fb goog : Option Nat)
    (feeds : List (Except String (List NewsEntry))) (ytAvailable : Bool)
    (ytResults : List (Except Unit (List YTVideo))) (now today : String) : Nat :=
  match runPipeline fs fb goog feeds ytAvailable ytResults now today with
  | .ok _ => 0
  | .error _ => 1

/-! ## Association-list lemmas -/

theorem lookupA_setA_self {α : Type} (l : List (String × α)) (k : String) (v : α) :
    lookupA (setA l k v) k = some v := by
  induction l with
  | nil => simp [setA, lookupA]
  | cons p rest ih =>
    obtain ⟨k', v'⟩ := p
    by_cases h : k' = k <;> simp [setA, lookupA, h, ih]

theorem lookupA_setA_ne {α : Type} (l : List (String × α)) (k k2 : String) (v : α)
    (h : k ≠ k2) : lookupA (setA l k v) k2 = lookupA l k2 := by
  induction l with
  | nil => simp [setA, lookupA, h]
  | cons p rest ih =>
    obtain ⟨k', v'⟩ := p
    by_cases h' : k' = k
    · subst h'
      simp [setA, lookupA, h]
    · simp [setA, lookupA, h', ih]

theorem setA_of_lookupA {α : Type} (l : List (String × α)) (k : String) (v : α)
    (h : lookupA l k = some v) : setA l k v = l := by
  induction l with
  | nil => simp [lookupA] at h
  | cons p rest ih =>
    obtain ⟨k', v'⟩ := p
    by_cases h' : k' = k
    · subst h'
      simp [lookupA] at h
      simp [setA, h]
    · simp [lookupA, h'] at h
      simp [setA, h', ih h]

theorem lookupA_setA_isSome {α : Type} (l : List (String × α)) (k k2 : String) (v : α)
    (h : (lookupA l k).isSome = true) :
    (lookupA (setA l k v) k2).isSome = (lookupA l k2).isSome := by
  by_cases hk : k = k2
  · subst hk
    rw [lookupA_setA_self]
    exact (Option.isSome_some).trans h.symm
  · rw [lookupA_setA_ne _ _ _ _ hk]

/-- A fold preserves any invariant its step preserves. -/
theorem foldl_preserves {β σ : Type} (P : σ → Prop) (f : σ → β → σ)
    (hf : ∀ s b, P s → P (f s b)) : ∀ (l : List β) (s : σ), P s → P (l.foldl f s) := by
  intro l
  induction l with
  | nil => intro s h; exact h
  | cons b rest ih => intro s h; exact ih _ (hf _ _ h)

/-! ## Stage frame lemmas -/

theorem processNewsEntry_stats (today : String) (st : Dataset × List String × List Article)
    (e : NewsEntry) : (processNewsEntry today st e).1.stats = st.1.stats := by
  unfold processNewsEntry
  dsimp only
  split
  · rfl
  · split
    · rfl
    · dsimp only
      split <;> rfl

theorem processNewsEntry_tv (today : String) (st : Dataset × List String × List Article)
    (e : NewsEntry) : (processNewsEntry today st e).1.tv_shows = st.1.tv_shows := by
  unfold processNewsEntry
  dsimp only
  split
  · rfl
  · split
    · rfl
    · dsimp only
      split <;> rfl

theorem processNewsEntry_lu (today : String) (st : Dataset × List String × List Article)
    (e : NewsEntry) : (processNewsEntry today st e).1.last_updated = st.1.last_updated := by
  unfold processNewsEntry
  dsimp only
  split
  · rfl
  · split
    · rfl
    · dsimp only
      split <;> rfl

theorem processFeed_stats (today : String) (st : Dataset × List String × List Article)
    (nf : String × Except String (List NewsEntry)) :
    (processFeed today st nf).1.stats = st.1.stats := by
  unfold processFeed
  cases hm : nf.2 with
  | error e => rfl
  | ok entries =>
    exact foldl_preserves
      (fun (s : Dataset × List String × List Article) => s.1.stats = st.1.stats)
      (processNewsEntry today)
      (fun s' e h' => by
        show (processNewsEntry today s' e).1.stats = st.1.stats
        rw [processNewsEntry_stats]
        exact h') _ _ rfl

theorem search_google_news_stats (d : Dataset) (feeds : List (Except String (List NewsEntry)))
    (today : String) : (search_google_news d feeds today).1.stats = d.stats := by
  unfold search_google_news
  dsimp only
  refine foldl_preserves
    (fun (st : Dataset × List String × List Article) => st.1.stats = d.stats)
    (processFeed today) ?_ _ _ rfl
  intro s b h
  rw [processFeed_stats]
  exact h

theorem processVideo_stats (today show_name network : String)
    (st : Dataset × List String × List Appearance) (v : YTVideo) :
    (processVideo today show_name network st v).1.stats = st.1.stats := by
  unfold processVideo
  dsimp only
  split
  · rfl
  · split <;> rfl

theorem processShowResult_stats (today : String)
    (st : Dataset × List String × List Appearance)
    (sr : (String × String × List String) × Except Unit (List YTVideo)) :
    (processShowResult today st sr).1.stats = st.1.stats := by
  unfold processShowResult
  cases hm : sr.2 with
  | error e => rfl
  | ok vids =>
    exact foldl_preserves
      (fun (s : Dataset × List String × List Appearance) => s.1.stats = st.1.stats)
      (processVideo today sr.1.1 sr.1.2.1)
      (fun s' v h' => by
        show (processVideo today sr.1.1 sr.1.2.1 s' v).1.stats = st.1.stats
        rw [processVideo_stats]
        exact h') _ _ rfl

theorem search_youtube_shows_stats (d : Dataset) (avail : Bool)
    (results : List (Except Unit (List YTVideo))) (today : String) :
    (search_youtube_shows d avail results today).1.stats = d.stats := by
  unfold search_youtube_shows
  split
  · dsimp only
    refine foldl_preserves
      (fun (st : Dataset × List String × List Appearance) => st.1.stats = d.stats)
      (processShowResult today) ?_ _ _ rfl
    intro s b h
    rw [processShowResult_stats]
    exact h
  · rfl

theorem update_facebook_followers_stats_isSome (d : Dataset) (f : Option Nat) (k : String) :
    (lookupA (update_facebook_followers d f).1.stats k).isSome = (lookupA d.stats k).isSome := by
  unfold update_facebook_followers
  match f with
  | none => rfl
  | some count =>
    dsimp only
    split
    · cases hl : lookupA d.stats "facebook_followers" with
      | none => rfl
      | some entry =>
        dsimp only
        exact lookupA_setA_isSome _ _ _ _ (by simp [hl])
    · rfl

theorem update_google_rating_stats_isSome (d : Dataset) (f : Option Nat) (k : String) :
    (lookupA (update_google_rating d f).1.stats k).isSome = (lookupA d.stats k).isSome := by
  unfold update_google_rating
  match f with
  | none => rfl
  | some tenths =>
    dsimp only
    split
    · cases hl : lookupA d.stats "google_rating" with
      | none => rfl
      | some entry =>
        dsimp only
        exact lookupA_setA_isSome _ _ _ _ (by simp [hl])
    · rfl

theorem recalculate_stats_ok (d : Dataset)
    (h1 : (lookupA d.stats "tv_episodes").isSome = true)
    (h2 : (lookupA d.stats "media_exposure").isSome = true) :
    ∃ d', recalculate_stats d = Except.ok d' := by
  rcases Option.isSome_iff_exists.mp h1 with ⟨te, hte⟩
  rcases Option.isSome_iff_exists.mp h2 with ⟨me, hme⟩
  unfold recalculate_stats
  rw [hte, hme]
  exact ⟨_, rfl⟩

/-! ## Claims -/

/-- C1: after the stat-recalculation stage runs (successfully) on a
dataset, `stats.tv_episodes.count` equals the size of the `tv_shows`
collection, `stats.media_exposure.count` equals it plus the sizes of
`news_media` and `health_media`, and both display strings are the
corresponding integer followed by `"+"`. -/
theorem claim_C1_stat_derivation (d d' : Dataset)
    (h : recalculate_stats d = Except.ok d') :
    d'.tv_shows = d.tv_shows ∧
    statField d' "tv_episodes" "count" = some (.num d.tv_shows.length) ∧
    statField d' "tv_episodes" "display" = some (.str (toString d.tv_shows.length ++ "+")) ∧
    statField d' "media_exposure" "count" =
      some (.num (d.tv_shows.length + (d.news_media.length + d.health_media.length))) ∧
    statField d' "media_exposure" "display" =
      some (.str (toString (d.tv_shows.length + (d.news_media.length + d.health_media.length)) ++ "+")) := by
  unfold recalculate_stats at h
  cases hte : lookupA d.stats "tv_episodes" with
  | none => rw [hte] at h; cases hme : lookupA d.stats "media_exposure" <;> rw [hme] at h <;> simp at h
  | some te =>
    cases hme : lookupA d.stats "media_exposure" with
    | none => rw [hte, hme] at h; simp at h
    | some me =>
      rw [hte, hme] at h
      dsimp only at h
      simp only [Except.ok.injEq] at h
      subst h
      have hme_tv : ("media_exposure" : String) ≠ "tv_episodes" := by decide
      have hdc : ("display" : String) ≠ "count" := by decide
      refine ⟨rfl, ?_, ?_, ?_, ?_⟩
      · simp only [statField]
        rw [lookupA_setA_ne _ _ _ _ hme_tv, lookupA_setA_self]
        simp only [Option.some_bind]
        rw [lookupA_setA_ne _ _ _ _ hdc, lookupA_setA_self]
      · simp only [statField]
        rw [lookupA_setA_ne _ _ _ _ hme_tv, lookupA_setA_self]
        simp only [Option.some_bind]
        rw [lookupA_setA_self]
      · simp only [statField]
        rw [lookupA_setA_self]
        simp only [Option.some_bind]
        rw [lookupA_setA_ne _ _ _ _ hdc, lookupA_setA_self]
      · simp only [statField]
        rw [lookupA_setA_self]
        simp only [Option.some_bind]
        rw [lookupA_setA_self]

/-- A small dataset whose stats already carry the two derived counters. -/
def sampleStatsDataset : Dataset :=
  { freshDataset with
    stats := [("tv_episodes", [("count", .num 0), ("display", .str "0+")]),
              ("media_exposure", [("count", .num 0), ("display", .str "0+")])] }

/-- C1 witness: the stat-derivation theorem at a concrete dataset. -/
theorem claim_C1_witness :
    recalculate_stats sampleStatsDataset = Except.ok sampleStatsDataset ∧
    statField sampleStatsDataset "tv_episodes" "count" =
      some (.num sampleStatsDataset.tv_shows.length) :=
  ⟨rfl, (claim_C1_stat_derivation sampleStatsDataset sampleStatsDataset rfl).2.1⟩

/-- C7: for every combination of internal stage outcomes — the follower
fetch, the rating fetch, every feed and every yt-dlp query may each fail or
succeed arbitrarily — the process exit status is 0.  The only standing
precondition is the well-formedness the stat recalculator assumes (the two
derived stats entries exist in the loaded dataset); without it the run dies
on `KeyError`, which is a malformed-dataset fatality, not a stage failure. -/
theorem claim_C7_always_exit_zero (d : Dataset) (fb goog : Option Nat)
    (feeds : List (Except String (List NewsEntry))) (ytAvailable : Bool)
    (ytResults : List (Except Unit (List YTVideo))) (now today : String)
    (h1 : (lookupA d.stats "tv_episodes").isSome = true)
    (h2 : (lookupA d.stats "media_exposure").isSome = true) :
    processExitCode (FileState.present (Except.ok d)) fb goog feeds ytAvailable ytResults
      now today = 0 := by
  have hs4 : ∀ k, (lookupA ((search_youtube_shows (search_google_news
      (update_google_rating (update_facebook_followers d fb).1 goog).1 feeds today).1
      ytAvailable ytResults today).1.stats) k).isSome = (lookupA d.stats k).isSome := by
    intro k
    rw [search_youtube_shows_stats, search_google_news_stats,
      update_google_rating_stats_isSome, update_facebook_followers_stats_isSome]
  rcases recalculate_stats_ok _ ((hs4 _).trans h1) ((hs4 _).trans h2) with ⟨d5, hd5⟩
  unfold processExitCode runPipeline load_data
  dsimp only
  rw [hd5]

/-- C7 witness: the exit-status theorem at a concrete dataset and concrete
all-failing stage outcomes. -/
theorem claim_C7_witness :
    (lookupA sampleStatsDataset.stats "tv_episodes").isSome = true ∧
    processExitCode (FileState.present (Except.ok sampleStatsDataset)) none none []
      false [] "2025-10-12T00:00:00+08:00" "2025-10-12" = 0 :=
  ⟨rfl, claim_C7_always_exit_zero sampleStatsDataset none none [] false []
    "2025-10-12T00:00:00+08:00" "2025-10-12" rfl rfl⟩

/-- C8: the loader returns the fresh dataset — empty collections and empty
stats mapping — exactly in the file-absent case; an existing file's parsed
content is returned as is, and an I/O or parse failure on an existing file
propagates as a fatal error instead of degrading to the empty dataset. -/
theorem claim_C8_loader :
    (load_data FileState.absent = Except.ok freshDataset ∧
     freshDataset.stats = [] ∧ freshDataset.tv_shows = [] ∧
     freshDataset.health_media = [] ∧ freshDataset.news_media = []) ∧
    (∀ d : Dataset, load_data (FileState.present (Except.ok d)) = Except.ok d) ∧
    (∀ e : String, load_data (FileState.present (Except.error e)) = Except.error e) :=
  ⟨⟨rfl, rfl, rfl, rfl, rfl⟩, fun _ => rfl, fun _ => rfl⟩

/-- C9: the follower-count display formatter on the three specified
inputs. -/
theorem claim_C9_follower_formatting :
    format_follower_count 49234 = "4.9萬+" ∧
    format_follower_count 50000 = "5萬+" ∧
    format_follower_count 800 = "800+" :=
  ⟨rfl, rfl, rfl⟩

/-! ## Classification lemmas -/

theorem classify_outlet_fuzzy_branch (url src : String) (hd : domainFirstMatch url = none)
    (hs : src ≠ "") :
    classify_outlet url src =
      (match fuzzyNameMatch src with | some n => n | none => src) := by
  unfold classify_outlet
  rw [hd, if_pos hs]

theorem classify_outlet_host_branch (url : String) (hd : domainFirstMatch url = none) :
    classify_outlet url "" =
      (match splitNetloc url with
       | .ok host => strReplace host "www." ""
       | .error _ => "其他媒體") := by
  unfold classify_outlet
  rw [hd, if_neg (by simp : ¬(("" : String) ≠ ""))]

theorem domainFirstMatch_mem (url : String) :
    ∀ (l : List (String × List String)) (n : String),
      (l.findSome? (fun p => if p.2.any (fun dm => containsSub url dm) then some p.1 else none))
        = some n → n ∈ l.map Prod.fst := by
  intro l
  induction l with
  | nil => intro n h; simp [List.findSome?] at h
  | cons p rest ih =>
    intro n h
    rw [List.findSome?_cons] at h
    by_cases hc : (p.2.any (fun dm => containsSub url dm)) = true
    · rw [if_pos hc] at h
      cases h
      simp
    · rw [if_neg hc] at h
      exact List.mem_cons_of_mem _ (ih n h)

/-- C4: classification order.  A URL whose domain matches the outlet-domain
tables always yields the matched outlet name regardless of the source
label; with no domain match, a label that is a known outlet name yields
that label; with no domain match and no label, the URL's bare host
(`"www."` removed) is returned. -/
theorem claim_C4_classification_order :
    (∀ url src n, domainFirstMatch url = some n → classify_outlet url src = n) ∧
    (∀ url lbl, domainFirstMatch url = none → lbl ∈ allOutletNames →
      classify_outlet url lbl = lbl) ∧
    (∀ url host, domainFirstMatch url = none → splitNetloc url = Except.ok host →
      classify_outlet url "" = strReplace host "www." "") := by
  refine ⟨?_, ?_, ?_⟩
  · intro url src n h
    unfold classify_outlet
    rw [h]
  · intro url lbl hd hmem
    fin_cases hmem <;>
      · rw [classify_outlet_fuzzy_branch _ _ hd (by decide)]
        decide
  · intro url host hd hok
    rw [classify_outlet_host_branch _ hd, hok]

/-- C4 witness: a domain-table match overrides the source label. -/
theorem claim_C4_witness :
    domainFirstMatch "https://health.ltn.com.tw/breakingnews/1" = some "自由時報" ∧
    classify_outlet "https://health.ltn.com.tw/breakingnews/1" "某來源" = "自由時報" :=
  ⟨rfl, claim_C4_classification_order.1 _ "某來源" _ rfl⟩

/-- C10 counterexample: `classify_outlet` can return the empty string (an
unmatched domain, no label, and a URL with no netloc), and the host
fallback removes every occurrence of `"www."`, not just a leading prefix
(`awww.com` becomes `acom`, not `awww.com`). -/
theorem claim_C10_counterexample :
    classify_outlet "x" "" = "" ∧
    classify_outlet "http://awww.com/a" "" = "acom" :=
  ⟨rfl, rfl⟩

/-- C10 (amended): `classify_outlet` is total and never raises; it returns
a non-empty name whenever the source label is non-empty (matched outlet
names are non-empty, and otherwise the label itself is returned); when the
label is empty and no domain matches, it returns the host with every
occurrence of the substring `"www."` removed, or the fixed catch-all
`"其他媒體"` when host extraction raises; with an empty label and no host
the result can be the empty string. -/
theorem claim_C10_totality_and_fallback :
    (∀ url src, src ≠ "" → classify_outlet url src ≠ "") ∧
    (∀ url, domainFirstMatch url = none → splitNetloc url = Except.error () →
      classify_outlet url "" = "其他媒體") ∧
    (∀ url host, domainFirstMatch url = none → splitNetloc url = Except.ok host →
      classify_outlet url "" = strReplace host "www." "") := by
  refine ⟨?_, ?_, ?_⟩
  · intro url src hs
    cases hdom : domainFirstMatch url with
    | some n =>
      unfold classify_outlet
      rw [hdom]
      have hmem : n ∈ mergedDomainTable.map Prod.fst := domainFirstMatch_mem url _ n hdom
      have hall : ∀ x ∈ mergedDomainTable.map Prod.fst, x ≠ "" := by decide
      exact hall n hmem
    | none =>
      rw [classify_outlet_fuzzy_branch _ _ hdom hs]
      cases hf : fuzzyNameMatch src with
      | none => exact hs
      | some n =>
        have hmem : n ∈ allOutletNames := List.mem_of_find?_eq_some hf
        have hall : ∀ x ∈ allOutletNames, x ≠ "" := by decide
        exact hall n hmem
  · intro url hd herr
    rw [classify_outlet_host_branch _ hd, herr]
  · intro url host hd hok
    rw [classify_outlet_host_branch _ hd, hok]

/-- C10 witness: the raising-host branch at a concrete malformed URL. -/
theorem claim_C10_witness :
    splitNetloc "http://[x" = Except.error () ∧
    classify_outlet "http://[x" "" = "其他媒體" :=
  ⟨rfl, claim_C10_totality_and_fallback.2.1 "http://[x" rfl rfl⟩

/-! ## Category routing -/

theorem determine_category_health_of_mem (outlet : String)
    (h : outlet ∈ HEALTH_MEDIA_DOMAINS.map HealthOutlet.name) :
    determine_category outlet = "health_media" := by
  unfold determine_category
  rw [if_pos]
  rcases List.mem_map.mp h with ⟨x, hx, he⟩
  simp only [List.any_eq_true, beq_iff_eq]
  exact ⟨x, hx, he⟩

theorem determine_category_news_of_not_mem (outlet : String)
    (h : outlet ∉ HEALTH_MEDIA_DOMAINS.map HealthOutlet.name) :
    determine_category outlet = "news_media" := by
  unfold determine_category
  rw [if_neg]
  simp only [List.any_eq_true, beq_iff_eq]
  rintro ⟨x, hx, he⟩
  exact h (List.mem_map.mpr ⟨x, hx, he⟩)

/-- C5: a discovered article that passes deduplication and relevance is
appended to `health_media` exactly when its resolved outlet is a key of
the health-outlet table, carrying that table's role when the role is
non-empty (and no role field otherwise); every other discovered article is
appended to `news_media` with no `outlet_role` field. -/
theorem claim_C5_category_routing (today : String)
    (st : Dataset × List String × List Article) (e : NewsEntry)
    (h1 : (e.resolved.getD e.link) ∉ st.2.1) (h2 : e.link ∉ st.2.1)
    (h3 : (SEARCH_NAMES.any fun n => containsSub e.title n) = true) :
    ∃ a : Article,
      (processNewsEntry today st e).2.2 = st.2.2 ++ [a] ∧
      a.outlet = classify_outlet (e.resolved.getD e.link) (splitTitleSource e.title).2 ∧
      (if a.outlet ∈ HEALTH_MEDIA_DOMAINS.map HealthOutlet.name then
        (processNewsEntry today st e).1.health_media = st.1.health_media ++ [a] ∧
        (processNewsEntry today st e).1.news_media = st.1.news_media ∧
        a.outlet_role =
          (if healthRoleFor a.outlet = "" then none else some (healthRoleFor a.outlet))
      else
        (processNewsEntry today st e).1.news_media = st.1.news_media ++ [a] ∧
        (processNewsEntry today st e).1.health_media = st.1.health_media ∧
        a.outlet_role = none) := by
  have hskip : ¬((e.resolved.getD e.link) ∈ st.2.1 ∨ e.link ∈ st.2.1) := not_or.mpr ⟨h1, h2⟩
  have hrel : ¬((!(SEARCH_NAMES.any fun n => containsSub e.title n)) = true) := by
    simp [h3]
  unfold processNewsEntry
  rw [if_neg hskip, if_neg hrel]
  dsimp only
  by_cases hmem :
      classify_outlet (e.resolved.getD e.link) (splitTitleSource e.title).2 ∈
        HEALTH_MEDIA_DOMAINS.map HealthOutlet.name
  · have hcat := determine_category_health_of_mem _ hmem
    rw [hcat]
    refine ⟨_, rfl, rfl, ?_⟩
    rw [if_pos hmem]
    simp only [if_pos (rfl : ("health_media" : String) = "health_media")]
    refine ⟨rfl, rfl, ?_⟩
    by_cases hr : healthRoleFor
        (classify_outlet (e.resolved.getD e.link) (splitTitleSource e.title).2) = ""
    · simp [hr]
    · simp [hr]
  · have hcat := determine_category_news_of_not_mem _ hmem
    rw [hcat]
    refine ⟨_, rfl, rfl, ?_⟩
    rw [if_neg hmem]
    have hne : ("news_media" : String) ≠ "health_media" := by decide
    simp

/-- A concrete feed entry resolving to a health-outlet domain. -/
def healthEntry : NewsEntry :=
  { title := "楊智鈞談靜脈曲張 - 早安健康"
    link := "https://news.google.com/rss/articles/abc"
    resolved := some "https://www.edh.tw/article/99"
    published := some "2025-01-01" }

/-- C5 witness: the routing theorem at a concrete health-outlet entry. -/
theorem claim_C5_witness :
    (SEARCH_NAMES.any fun n => containsSub healthEntry.title n) = true ∧
    (∃ a : Article,
      (processNewsEntry "2025-10-12" (freshDataset, [], []) healthEntry).2.2 = [] ++ [a] ∧
      a.outlet = classify_outlet (healthEntry.resolved.getD healthEntry.link)
        (splitTitleSource healthEntry.title).2 ∧
      (if a.outlet ∈ HEALTH_MEDIA_DOMAINS.map HealthOutlet.name then
        (processNewsEntry "2025-10-12" (freshDataset, [], []) healthEntry).1.health_media =
          freshDataset.health_media ++ [a] ∧
        (processNewsEntry "2025-10-12" (freshDataset, [], []) healthEntry).1.news_media =
          freshDataset.news_media ∧
        a.outlet_role =
          (if healthRoleFor a.outlet = "" then none else some (healthRoleFor a.outlet))
      else
        (processNewsEntry "2025-10-12" (freshDataset, [], []) healthEntry).1.news_media =
          freshDataset.news_media ++ [a] ∧
        (processNewsEntry "2025-10-12" (freshDataset, [], []) healthEntry).1.health_media =
          freshDataset.health_media ∧
        a.outlet_role = none)) :=
  ⟨rfl, claim_C5_category_routing "2025-10-12" (freshDataset, [], []) healthEntry
    (by simp) (by simp) rfl⟩

/-! ## Stats-key bookkeeping for the whole run -/

theorem recalculate_stats_keys (d d' : Dataset) (h : recalculate_stats d = Except.ok d') :
    (∀ k, (lookupA d'.stats k).isSome = (lookupA d.stats k).isSome) ∧
    (lookupA d'.stats "tv_episodes").isSome = true ∧
    (lookupA d'.stats "media_exposure").isSome = true := by
  unfold recalculate_stats at h
  cases hte : lookupA d.stats "tv_episodes" with
  | none =>
    rw [hte] at h
    cases hme : lookupA d.stats "media_exposure" <;> rw [hme] at h <;> simp at h
  | some te =>
    cases hme : lookupA d.stats "media_exposure" with
    | none => rw [hte, hme] at h; simp at h
    | some me =>
      rw [hte, hme] at h
      dsimp only at h
      simp only [Except.ok.injEq] at h
      subst h
      have hteS : (lookupA d.stats "tv_episodes").isSome = true := by simp [hte]
      have h1 : ∀ k,
          (lookupA (setA d.stats "tv_episodes"
            (setA (setA te "count" (.num d.tv_shows.length)) "display"
              (.str (toString d.tv_shows.length ++ "+")))) k).isSome
          = (lookupA d.stats k).isSome :=
        fun k => lookupA_setA_isSome _ _ _ _ hteS
      have hmeS : (lookupA (setA d.stats "tv_episodes"
            (setA (setA te "count" (.num d.tv_shows.length)) "display"
              (.str (toString d.tv_shows.length ++ "+")))) "media_exposure").isSome = true := by
        rw [h1]; simp [hme]
      refine ⟨?_, ?_, ?_⟩
      · intro k
        dsimp only
        rw [lookupA_setA_isSome _ _ _ _ hmeS, h1]
      · dsimp only
        rw [lookupA_setA_ne _ _ _ _ (by decide : ("media_exposure" : String) ≠ "tv_episodes"),
          lookupA_setA_self]
        rfl
      · dsimp only
        rw [lookupA_setA_self]
        rfl

theorem save_data_stats (d : Dataset) (now : String) : (save_data d now).stats = d.stats := rfl

/-- C2 counterexample: a run that succeeds (all fetch stages fail, nothing
new is found) starting from a dataset whose stats hold only the two
derived entries ends with a stats mapping that still lacks
`facebook_followers` (and `google_rating`): the pipeline never adds stats
keys, so the four-key property fails for this loadable starting state. -/
theorem claim_C2_counterexample :
    runPipeline (FileState.present (Except.ok sampleStatsDataset)) none none [] false []
        "2025-10-12T00:00:00+08:00" "2025-10-12" =
      Except.ok ({ sampleStatsDataset with
        last_updated := some "2025-10-12T00:00:00+08:00" }, false) ∧
    lookupA ({ sampleStatsDataset with
        last_updated := some "2025-10-12T00:00:00+08:00" } : Dataset).stats
      "facebook_followers" = none :=
  ⟨rfl, rfl⟩

/-- C2 (amended): after every successful run the stats mapping contains
`tv_episodes` and `media_exposure`; the run never adds or removes stats
keys, so it contains all four known keys exactly when the loaded dataset's
stats already contained `facebook_followers` and `google_rating`; and the
fresh empty dataset made for an absent file cannot complete a run at all —
stat recalculation fails on its empty stats mapping. -/
theorem claim_C2_stats_keys (fs : FileState) (fb goog : Option Nat)
    (feeds : List (Except String (List NewsEntry))) (ytAvailable : Bool)
    (ytResults : List (Except Unit (List YTVideo))) (now today : String)
    (d0 d : Dataset) (c : Bool)
    (hload : load_data fs = Except.ok d0)
    (hrun : runPipeline fs fb goog feeds ytAvailable ytResults now today = Except.ok (d, c)) :
    ((lookupA d.stats "tv_episodes").isSome = true ∧
     (lookupA d.stats "media_exposure").isSome = true ∧
     (∀ k, (lookupA d.stats k).isSome = (lookupA d0.stats k).isSome) ∧
     (((lookupA d.stats "facebook_followers").isSome = true ∧
       (lookupA d.stats "google_rating").isSome = true ∧
       (lookupA d.stats "tv_episodes").isSome = true ∧
       (lookupA d.stats "media_exposure").isSome = true) ↔
      ((lookupA d0.stats "facebook_followers").isSome = true ∧
       (lookupA d0.stats "google_rating").isSome = true))) ∧
    runPipeline FileState.absent none none [] false [] now today = Except.error "KeyError" := by
  refine ⟨?_, rfl⟩
  unfold runPipeline at hrun
  rw [hload] at hrun
  dsimp only at hrun
  have hchain : ∀ k, (lookupA ((search_youtube_shows (search_google_news
      (update_google_rating (update_facebook_followers d0 fb).1 goog).1 feeds today).1
      ytAvailable ytResults today).1.stats) k).isSome = (lookupA d0.stats k).isSome := by
    intro k
    rw [search_youtube_shows_stats, search_google_news_stats,
      update_google_rating_stats_isSome, update_facebook_followers_stats_isSome]
  cases hrec : recalculate_stats (search_youtube_shows (search_google_news
      (update_google_rating (update_facebook_followers d0 fb).1 goog).1 feeds today).1
      ytAvailable ytResults today).1 with
  | error e => rw [hrec] at hrun; simp at hrun
  | ok d5 =>
    rw [hrec] at hrun
    simp only [Except.ok.injEq, Prod.mk.injEq] at hrun
    obtain ⟨hd, _⟩ := hrun
    have hkeys := recalculate_stats_keys _ _ hrec
    subst hd
    rw [save_data_stats]
    have htv := hkeys.2.1
    have hmee := hkeys.2.2
    have hk : ∀ k, (lookupA d5.stats k).isSome = (lookupA d0.stats k).isSome :=
      fun k => (hkeys.1 k).trans (hchain k)
    refine ⟨htv, hmee, hk, ?_, ?_⟩
    · rintro ⟨hfb, hgr, -, -⟩
      exact ⟨(hk "facebook_followers").symm.trans hfb, (hk "google_rating").symm.trans hgr⟩
    · rintro ⟨hfb0, hgr0⟩
      exact ⟨(hk "facebook_followers").trans hfb0, (hk "google_rating").trans hgr0, htv, hmee⟩

/-- A dataset carrying all four known stats keys. -/
def fourKeyDataset : Dataset :=
  { freshDataset with
    stats := [("facebook_followers", [("count", .num 49234), ("display", .str "4.9萬+")]),
              ("google_rating", [("score", .score 49)]),
              ("tv_episodes", [("count", .num 0), ("display", .str "0+")]),
              ("media_exposure", [("count", .num 0), ("display", .str "0+")])] }

/-- C2 witness: the amended key theorem at a concrete four-key dataset and
a concrete all-failing run. -/
theorem claim_C2_witness :
    runPipeline (FileState.present (Except.ok fourKeyDataset)) none none [] false []
        "2025-10-12T00:00:00+08:00" "2025-10-12" =
      Except.ok ({ fourKeyDataset with
        last_updated := some "2025-10-12T00:00:00+08:00" }, false) ∧
    (lookupA ({ fourKeyDataset with
        last_updated := some "2025-10-12T00:00:00+08:00" } : Dataset).stats
      "tv_episodes").isSome = true :=
  ⟨rfl, (claim_C2_stats_keys (FileState.present (Except.ok fourKeyDataset)) none none []
    false [] "2025-10-12T00:00:00+08:00" "2025-10-12" fourKeyDataset _ false rfl rfl).1.1⟩

/-! ## Frame behaviour of a no-new-content run -/

/-- An entry the news loop skips: already-known URL or irrelevant title. -/
def newsEntrySkips (ex : List String) (e : NewsEntry) : Prop :=
  (e.resolved.getD e.link) ∈ ex ∨ e.link ∈ ex ∨
    (SEARCH_NAMES.any fun n => containsSub e.title n) = false

/-- A video the YouTube loop skips: already-known id/URL or irrelevant title. -/
def ytVideoSkips (show_name : String) (ex : List String) (v : YTVideo) : Prop :=
  v.id ∈ ex ∨ ("https://youtu.be/" ++ v.id) ∈ ex ∨
    ((SEARCH_NAMES ++ [show_name]).any fun n => containsSub v.title n) = false

theorem processNewsEntry_skip (today : String) (st : Dataset × List String × List Article)
    (e : NewsEntry) (h : newsEntrySkips st.2.1 e) : processNewsEntry today st e = st := by
  unfold processNewsEntry
  by_cases hd : (e.resolved.getD e.link) ∈ st.2.1 ∨ e.link ∈ st.2.1
  · rw [if_pos hd]
  · rcases h with h1 | h2 | h3
    · exact absurd (Or.inl h1) hd
    · exact absurd (Or.inr h2) hd
    · rw [if_neg hd, if_pos (by simp [h3])]

theorem processVideo_skip (today show_name network : String)
    (st : Dataset × List String × List Appearance) (v : YTVideo)
    (h : ytVideoSkips show_name st.2.1 v) : processVideo today show_name network st v = st := by
  unfold processVideo
  by_cases hd : v.id ∈ st.2.1 ∨ ("https://youtu.be/" ++ v.id) ∈ st.2.1
  · rw [if_pos hd]
  · rcases h with h1 | h2 | h3
    · exact absurd (Or.inl h1) hd
    · exact absurd (Or.inr h2) hd
    · rw [if_neg hd, if_pos (by simp [h3])]

/-- A fold whose step fixes the state is the identity. -/
theorem foldl_fixed {β σ : Type} (f : σ → β → σ) (l : List β) (s : σ)
    (h : ∀ b ∈ l, f s b = s) : l.foldl f s = s := by
  induction l with
  | nil => rfl
  | cons b rest ih =>
    rw [List.foldl_cons, h b (List.mem_cons_self b rest)]
    exact ih (fun b' hb' => h b' (List.mem_cons_of_mem _ hb'))

theorem search_google_news_id (d : Dataset) (feeds : List (Except String (List NewsEntry)))
    (today : String)
    (h : ∀ fe ∈ feeds, ∀ entries, fe = Except.ok entries →
      ∀ e ∈ entries.take 15, newsEntrySkips (get_existing_urls d) e) :
    search_google_news d feeds today = (d, []) := by
  unfold search_google_news
  dsimp only
  rw [foldl_fixed]
  intro nf hnf
  unfold processFeed
  cases hm : nf.2 with
  | error e => rfl
  | ok entries =>
    refine foldl_fixed _ _ _ ?_
    intro e he
    exact processNewsEntry_skip today _ e
      (h nf.2 (List.of_mem_zip hnf).2 entries hm e he)

theorem search_youtube_shows_id (d : Dataset) (avail : Bool)
    (results : List (Except Unit (List YTVideo))) (today : String)
    (h : ∀ p ∈ TV_SHOWS.zip results, ∀ vids, p.2 = Except.ok vids →
      ∀ v ∈ vids, ytVideoSkips p.1.1 (get_existing_urls d) v) :
    search_youtube_shows d avail results today = (d, []) := by
  unfold search_youtube_shows
  cases avail with
  | false => rfl
  | true =>
    rw [if_pos rfl]
    dsimp only
    rw [foldl_fixed]
    intro sr hsr
    unfold processShowResult
    cases hm : sr.2 with
    | error e => rfl
    | ok vids =>
      refine foldl_fixed _ _ _ ?_
      intro v hv
      exact processVideo_skip today _ _ _ v (h sr hsr vids hm v hv)

theorem recalculate_stats_id (d : Dataset)
    (hc1 : statField d "tv_episodes" "count" = some (.num d.tv_shows.length))
    (hc2 : statField d "tv_episodes" "display" =
      some (.str (toString d.tv_shows.length ++ "+")))
    (hc3 : statField d "media_exposure" "count" =
      some (.num (d.tv_shows.length + (d.news_media.length + d.health_media.length))))
    (hc4 : statField d "media_exposure" "display" =
      some (.str (toString (d.tv_shows.length + (d.news_media.length + d.health_media.length)) ++ "+"))) :
    recalculate_stats d = Except.ok d := by
  unfold statField at hc1 hc2 hc3 hc4
  cases hte : lookupA d.stats "tv_episodes" with
  | none => rw [hte] at hc1; simp at hc1
  | some te =>
    cases hme : lookupA d.stats "media_exposure" with
    | none => rw [hme] at hc3; simp at hc3
    | some me =>
      rw [hte] at hc1 hc2
      rw [hme] at hc3 hc4
      simp only [Option.some_bind] at hc1 hc2 hc3 hc4
      unfold recalculate_stats
      rw [hte, hme]
      dsimp only
      rw [setA_of_lookupA _ _ _ hc1, setA_of_lookupA _ _ _ hc2,
        setA_of_lookupA _ _ _ hc3, setA_of_lookupA _ _ _ hc4,
        setA_of_lookupA _ _ _ hte, setA_of_lookupA _ _ _ hme]

/-- A dataset whose persisted counters disagree with its (empty)
collections — e.g. a manually edited file. -/
def staleStatsDataset : Dataset :=
  { freshDataset with
    stats := [("tv_episodes", [("count", .num 5), ("display", .str "5+")]),
              ("media_exposure", [("count", .num 5), ("display", .str "5+")])] }

/-- C6 counterexample: a run in which no stage finds anything (all fetches
fail, no feed entries, yt-dlp unavailable) still rewrites the stats
counters from the collection sizes, so a loaded dataset whose counters
disagree with its collections comes out with changed stats entries — not
byte-for-byte identical outside `last_updated` as the claim states. -/
theorem claim_C6_counterexample :
    runPipeline (FileState.present (Except.ok staleStatsDataset)) none none [] false []
        "2025-10-12T00:00:00+08:00" "2025-10-12" =
      Except.ok ({ staleStatsDataset with
        last_updated := some "2025-10-12T00:00:00+08:00"
        stats := [("tv_episodes", [("count", .num 0), ("display", .str "0+")]),
                  ("media_exposure", [("count", .num 0), ("display", .str "0+")])] }, false) ∧
    statField staleStatsDataset "tv_episodes" "count" ≠ some (.num 0) :=
  ⟨rfl, by decide⟩

/-- C6 (amended): a run in which every fetch fails or finds nothing new
changes only `last_updated`, provided the loaded stats counters already
equal the values derived from the collection sizes (as any state written by
a previous successful run satisfies); the collections are untouched
unconditionally, and the run reports "no changes". -/
theorem claim_C6_no_new_content_frame (d : Dataset)
    (feeds : List (Except String (List NewsEntry)))
    (ytAvailable : Bool) (ytResults : List (Except Unit (List YTVideo))) (now today : String)
    (hnews : ∀ fe ∈ feeds, ∀ entries, fe = Except.ok entries →
      ∀ e ∈ entries.take 15, newsEntrySkips (get_existing_urls d) e)
    (hyt : ∀ p ∈ TV_SHOWS.zip ytResults, ∀ vids, p.2 = Except.ok vids →
      ∀ v ∈ vids, ytVideoSkips p.1.1 (get_existing_urls d) v)
    (hc1 : statField d "tv_episodes" "count" = some (.num d.tv_shows.length))
    (hc2 : statField d "tv_episodes" "display" =
      some (.str (toString d.tv_shows.length ++ "+")))
    (hc3 : statField d "media_exposure" "count" =
      some (.num (d.tv_shows.length + (d.news_media.length + d.health_media.length))))
    (hc4 : statField d "media_exposure" "display" =
      some (.str (toString (d.tv_shows.length + (d.news_media.length + d.health_media.length)) ++ "+"))) :
    runPipeline (FileState.present (Except.ok d)) none none feeds ytAvailable ytResults
      now today = Except.ok ({ d with last_updated := some now }, false) := by
  unfold runPipeline load_data
  dsimp only
  have h3 : search_google_news (update_google_rating
      (update_facebook_followers d none).1 none).1 feeds today = (d, []) :=
    search_google_news_id d feeds today hnews
  rw [h3]
  dsimp only
  have h4 : search_youtube_shows d ytAvailable ytResults today = (d, []) :=
    search_youtube_shows_id d ytAvailable ytResults today hyt
  rw [h4]
  dsimp only
  rw [recalculate_stats_id d hc1 hc2 hc3 hc4]
  rfl

/-- C6 witness: the frame theorem at a concrete consistent dataset with a
concrete all-failing run. -/
theorem claim_C6_witness :
    statField sampleStatsDataset "tv_episodes" "count" =
      some (.num sampleStatsDataset.tv_shows.length) ∧
    runPipeline (FileState.present (Except.ok sampleStatsDataset)) none none [] false []
        "2025-10-12T01:00:00+08:00" "2025-10-12" =
      Except.ok ({ sampleStatsDataset with
        last_updated := some "2025-10-12T01:00:00+08:00" }, false) :=
  ⟨rfl, claim_C6_no_new_content_frame sampleStatsDataset [] false []
    "2025-10-12T01:00:00+08:00" "2025-10-12" (by simp) (by simp) rfl rfl rfl rfl⟩

/-! ## Substring and extraction lemmas for the dedup index -/

theorem isPrefixOf_false_of_containsSubL_false (s pat : List Char)
    (h : containsSubL s pat = false) : pat.isPrefixOf s = false := by
  cases s with
  | nil =>
    cases pat with
    | nil => simp [containsSubL] at h
    | cons c r => rfl
  | cons c r =>
    unfold containsSubL at h
    exact (Bool.or_eq_false_iff.mp h).1

theorem afterLastOcc_none_of_not_contains (pat : List Char) :
    ∀ s : List Char, containsSubL s pat = false → afterLastOcc s pat = none := by
  intro s
  induction s with
  | nil => intro h; rfl
  | cons c r ih =>
    intro h
    unfold containsSubL at h
    rcases Bool.or_eq_false_iff.mp h with ⟨h1, h2⟩
    unfold afterLastOcc
    rw [ih h2, h1]
    simp

theorem beforeFirstOcc_of_not_contains (pat : List Char) :
    ∀ s : List Char, containsSubL s pat = false → beforeFirstOcc s pat = s := by
  intro s
  induction s with
  | nil => intro h; rfl
  | cons c r ih =>
    intro h
    unfold containsSubL at h
    rcases Bool.or_eq_false_iff.mp h with ⟨h1, h2⟩
    unfold beforeFirstOcc
    rw [h1, ih h2]
    simp

theorem isPrefixOf_append_self : ∀ (l t : List Char), l.isPrefixOf (l ++ t) = true := by
  intro l
  induction l with
  | nil => intro t; cases t <;> rfl
  | cons c r ih =>
    intro t
    show (c == c && r.isPrefixOf (r ++ t)) = true
    rw [ih, beq_self_eq_true]
    rfl

theorem containsSubL_of_isPrefixOf (s pat : List Char) (h : pat.isPrefixOf s = true) :
    containsSubL s pat = true := by
  cases s with
  | nil =>
    cases pat with
    | nil => rfl
    | cons c r => simp [List.isPrefixOf] at h
  | cons c r =>
    unfold containsSubL
    rw [h]
    rfl

theorem containsSubL_cons_of (c : Char) (s pat : List Char)
    (h : containsSubL s pat = true) : containsSubL (c :: s) pat = true := by
  unfold containsSubL
  rw [h]
  simp

theorem containsSubL_append_right (pat : List Char) :
    ∀ (p t : List Char), containsSubL t pat = true → containsSubL (p ++ t) pat = true := by
  intro p
  induction p with
  | nil => intro t h; exact h
  | cons c r ih => intro t h; exact containsSubL_cons_of c _ _ (ih t h)

theorem contains_cons_false (c : Char) (s pat : List Char)
    (h1 : pat.isPrefixOf (c :: s) = false) (h2 : containsSubL s pat = false) :
    containsSubL (c :: s) pat = false := by
  unfold containsSubL
  rw [h1, h2]
  rfl

theorem afterLastOcc_cons_some (c : Char) (s pat r : List Char)
    (h : afterLastOcc s pat = some r) : afterLastOcc (c :: s) pat = some r := by
  unfold afterLastOcc
  rw [h]

theorem afterLastOcc_append_some (pat r : List Char) :
    ∀ (p s : List Char), afterLastOcc s pat = some r →
      afterLastOcc (p ++ s) pat = some r := by
  intro p
  induction p with
  | nil => intro s h; exact h
  | cons c q ih => intro s h; exact afterLastOcc_cons_some _ _ _ _ (ih s h)

theorem afterLastOcc_pat_append (p0 : Char) (prest s : List Char)
    (htail : containsSubL (prest ++ s) (p0 :: prest) = false) :
    afterLastOcc ((p0 :: prest) ++ s) (p0 :: prest) = some s := by
  rw [List.cons_append]
  unfold afterLastOcc
  rw [afterLastOcc_none_of_not_contains _ _ htail]
  dsimp only
  rw [← List.cons_append, isPrefixOf_append_self]
  simp only [List.isEmpty_cons, Bool.not_false, Bool.and_true, if_pos]
  rw [List.drop_left]

/-- The `youtu.be/ID` shape: the script's normalizer recovers the id
(for ids that do not themselves embed the separators it splits on). -/
theorem vidFromUrl_shortForm (vid : String)
    (h1 : containsSub vid "youtu.be/" = false) (h2 : containsSub vid "?" = false) :
    vidFromUrl ("https://youtu.be/" ++ vid) = some vid := by
  have hdata : ("https://youtu.be/" ++ vid).toList =
      "https://".toList ++ ("youtu.be/".toList ++ vid.toList) := by
    show ("https://youtu.be/" ++ vid).data = _
    rw [String.data_append]
    rfl
  have htail : containsSubL ("outu.be/".toList ++ vid.toList) "youtu.be/".toList = false := by
    iterate 8 (apply contains_cons_false; rfl)
    exact h1
  have hafter : afterLastOcc ("https://youtu.be/" ++ vid).toList "youtu.be/".toList
      = some vid.toList := by
    rw [hdata]
    apply afterLastOcc_append_some
    exact afterLastOcc_pat_append 'y' "outu.be/".toList vid.toList htail
  have hcont : containsSub ("https://youtu.be/" ++ vid) "youtu.be/" = true := by
    show containsSubL _ _ = true
    rw [hdata]
    apply containsSubL_append_right
    exact containsSubL_of_isPrefixOf _ _ (isPrefixOf_append_self _ _)
  unfold vidFromUrl
  rw [if_pos hcont, hafter]
  simp only [Option.getD_some]
  rw [beforeFirstOcc_of_not_contains _ _ (h2 : containsSubL vid.toList "?".toList = false)]
  rfl

/-- The `youtube.com/watch?v=ID` shape: the script's normalizer recovers
the id. -/
theorem vidFromUrl_watchForm (vid : String)
    (h1 : containsSub vid "youtu.be/" = false) (h3 : containsSub vid "v=" = false)
    (h4 : containsSub vid "&" = false) :
    vidFromUrl ("https://www.youtube.com/watch?v=" ++ vid) = some vid := by
  have hdataA : ("https://www.youtube.com/watch?v=" ++ vid).toList =
      "https://www.youtube.com/watch?v=".toList ++ vid.toList := by
    show ("https://www.youtube.com/watch?v=" ++ vid).data = _
    rw [String.data_append]
    rfl
  have hno : containsSub ("https://www.youtube.com/watch?v=" ++ vid) "youtu.be/" = false := by
    show containsSubL _ _ = false
    rw [hdataA]
    iterate 32 (apply contains_cons_false; rfl)
    exact h1
  have hwatch : containsSub ("https://www.youtube.com/watch?v=" ++ vid)
      "youtube.com/watch" = true := by
    show containsSubL _ _ = true
    have hdataB : ("https://www.youtube.com/watch?v=" ++ vid).toList =
        "https://www.".toList ++ ("youtube.com/watch".toList ++ ("?v=".toList ++ vid.toList)) := by
      show ("https://www.youtube.com/watch?v=" ++ vid).data = _
      rw [String.data_append]
      rfl
    rw [hdataB]
    apply containsSubL_append_right
    exact containsSubL_of_isPrefixOf _ _ (isPrefixOf_append_self _ _)
  have htail2 : containsSubL ("=".toList ++ vid.toList) "v=".toList = false := by
    apply contains_cons_false
    · rfl
    · exact h3
  have hafter2 : afterLastOcc ("https://www.youtube.com/watch?v=" ++ vid).toList
      "v=".toList = some vid.toList := by
    have hdataC : ("https://www.youtube.com/watch?v=" ++ vid).toList =
        "https://www.youtube.com/watch?".toList ++ ("v=".toList ++ vid.toList) := by
      show ("https://www.youtube.com/watch?v=" ++ vid).data = _
      rw [String.data_append]
      rfl
    rw [hdataC]
    apply afterLastOcc_append_some
    exact afterLastOcc_pat_append 'v' "=".toList vid.toList htail2
  unfold vidFromUrl
  rw [if_neg (by simp [hno]), if_pos hwatch, hafter2]
  simp only [Option.getD_some]
  rw [beforeFirstOcc_of_not_contains _ _ (h4 : containsSubL vid.toList "&".toList = false)]
  rfl

/-! ## Existing-URL index membership -/

theorem mem_addExistingUrl_self (s : List String) (u : String) : u ∈ addExistingUrl s u := by
  unfold addExistingUrl
  cases vidFromUrl u <;> simp

theorem mem_addExistingUrl_of_mem (s : List String) (u x : String) (h : x ∈ s) :
    x ∈ addExistingUrl s u := by
  unfold addExistingUrl
  cases vidFromUrl u <;> simp [h]

theorem vid_mem_addExistingUrl (s : List String) (u vid : String)
    (h : vidFromUrl u = some vid) : vid ∈ addExistingUrl s u := by
  unfold addExistingUrl
  rw [h]
  simp

theorem exUrls_foldl_mono (x : String) : ∀ (l : List String) (acc : List String), x ∈ acc →
    x ∈ l.foldl (fun s u => if u ≠ "" then addExistingUrl s u else s) acc := by
  intro l
  induction l with
  | nil => intro acc h; exact h
  | cons u rest ih =>
    intro acc h
    rw [List.foldl_cons]
    apply ih
    by_cases hu : u ≠ ""
    · rw [if_pos hu]; exact mem_addExistingUrl_of_mem _ _ _ h
    · rw [if_neg hu]; exact h

theorem exUrls_foldl_of_mem (u : String) : ∀ (l : List String) (acc : List String),
    u ∈ l → u ≠ "" →
    u ∈ l.foldl (fun s u' => if u' ≠ "" then addExistingUrl s u' else s) acc ∧
    (∀ vid, vidFromUrl u = some vid →
      vid ∈ l.foldl (fun s u' => if u' ≠ "" then addExistingUrl s u' else s) acc) := by
  intro l
  induction l with
  | nil => intro acc h; simp at h
  | cons v rest ih =>
    intro acc hmem hne
    rcases List.mem_cons.mp hmem with he | hr
    · subst he
      rw [List.foldl_cons]
      constructor
      · apply exUrls_foldl_mono
        rw [if_pos hne]
        exact mem_addExistingUrl_self _ _
      · intro vid hv
        apply exUrls_foldl_mono
        rw [if_pos hne]
        exact vid_mem_addExistingUrl _ _ _ hv
    · rw [List.foldl_cons]
      exact ih _ hr hne

/-! ## In-run deduplication invariants -/

/-- Invariant of the news-discovery fold: the in-run index contains the
initial index and every appended article's URL, appended URLs are fresh,
and no two appended articles share a URL. -/
def NewsInv (ex0 : List String) (st : Dataset × List String × List Article) : Prop :=
  (∀ u ∈ ex0, u ∈ st.2.1) ∧
  (∀ a ∈ st.2.2, a.url ∈ st.2.1 ∧ a.url ∉ ex0) ∧
  st.2.2.Pairwise (fun a b => a.url ≠ b.url)

theorem processNewsEntry_inv (today : String) (ex0 : List String)
    (st : Dataset × List String × List Article) (e : NewsEntry) (h : NewsInv ex0 st) :
    NewsInv ex0 (processNewsEntry today st e) := by
  unfold processNewsEntry
  by_cases hd : (e.resolved.getD e.link) ∈ st.2.1 ∨ e.link ∈ st.2.1
  · rw [if_pos hd]; exact h
  · by_cases hr : (!(SEARCH_NAMES.any fun n => containsSub e.title n)) = true
    · rw [if_neg hd, if_pos hr]; exact h
    · rw [if_neg hd, if_neg hr]
      dsimp only
      have hactual : (e.resolved.getD e.link) ∉ st.2.1 := fun hmem => hd (Or.inl hmem)
      refine ⟨?_, ?_, ?_⟩
      · intro u hu
        exact List.mem_cons_of_mem _ (h.1 u hu)
      · intro a ha
        rcases List.mem_append.mp ha with hold | hnew
        · exact ⟨List.mem_cons_of_mem _ (h.2.1 a hold).1, (h.2.1 a hold).2⟩
        · rw [List.mem_singleton] at hnew
          subst hnew
          refine ⟨List.mem_cons_self _ _, ?_⟩
          intro hmem0
          exact hactual (h.1 _ hmem0)
      · rw [List.pairwise_append]
        refine ⟨h.2.2, List.pairwise_singleton _ _, ?_⟩
        intro a ha b hb
        rw [List.mem_singleton] at hb
        subst hb
        intro heq
        have heq' : a.url = e.resolved.getD e.link := heq
        exact hactual (heq' ▸ (h.2.1 a ha).1)

theorem processFeed_inv (today : String) (ex0 : List String)
    (st : Dataset × List String × List Article)
    (nf : String × Except String (List NewsEntry)) (h : NewsInv ex0 st) :
    NewsInv ex0 (processFeed today st nf) := by
  unfold processFeed
  cases hm : nf.2 with
  | error e => exact h
  | ok entries =>
    exact foldl_preserves (NewsInv ex0) (processNewsEntry today)
      (fun s' e h' => processNewsEntry_inv today ex0 s' e h') _ _ h

theorem search_google_news_dedup (d : Dataset) (feeds : List (Except String (List NewsEntry)))
    (today : String) :
    (∀ a ∈ (search_google_news d feeds today).2, a.url ∉ get_existing_urls d) ∧
    (search_google_news d feeds today).2.Pairwise (fun a b => a.url ≠ b.url) := by
  unfold search_google_news
  dsimp only
  have hInv : NewsInv (get_existing_urls d)
      ((SEARCH_NAMES.zip feeds).foldl (processFeed today)
        (d, get_existing_urls d, [])) :=
    foldl_preserves (NewsInv (get_existing_urls d)) (processFeed today)
      (fun s b h => processFeed_inv today _ s b h) _ _
      ⟨fun u hu => hu, by simp, List.Pairwise.nil⟩
  exact ⟨fun a ha => (hInv.2.1 a ha).2, hInv.2.2⟩

/-- Invariant of the YouTube-discovery fold: like `NewsInv`, with the
native video id of every appended record also indexed and fresh. -/
def YtInv (ex0 : List String) (st : Dataset × List String × List Appearance) : Prop :=
  (∀ u ∈ ex0, u ∈ st.2.1) ∧
  (∀ a ∈ st.2.2, a.url ∈ st.2.1 ∧ a.url ∉ ex0 ∧
    ∃ vid, a.url = "https://youtu.be/" ++ vid ∧ vid ∈ st.2.1 ∧ vid ∉ ex0) ∧
  st.2.2.Pairwise (fun a b => a.url ≠ b.url)

theorem processVideo_inv (today show_name network : String) (ex0 : List String)
    (st : Dataset × List String × List Appearance) (v : YTVideo) (h : YtInv ex0 st) :
    YtInv ex0 (processVideo today show_name network st v) := by
  unfold processVideo
  by_cases hd : v.id ∈ st.2.1 ∨ ("https://youtu.be/" ++ v.id) ∈ st.2.1
  · rw [if_pos hd]; exact h
  · by_cases hr : (!((SEARCH_NAMES ++ [show_name]).any fun n => containsSub v.title n)) = true
    · rw [if_neg hd, if_pos hr]; exact h
    · rw [if_neg hd, if_neg hr]
      dsimp only
      have hid : v.id ∉ st.2.1 := fun hmem => hd (Or.inl hmem)
      have hurl : ("https://youtu.be/" ++ v.id) ∉ st.2.1 := fun hmem => hd (Or.inr hmem)
      refine ⟨?_, ?_, ?_⟩
      · intro u hu
        exact List.mem_cons_of_mem _ (List.mem_cons_of_mem _ (h.1 u hu))
      · intro a ha
        rcases List.mem_append.mp ha with hold | hnew
        · obtain ⟨hm1, hm2, vid, hv1, hv2, hv3⟩ := h.2.1 a hold
          exact ⟨List.mem_cons_of_mem _ (List.mem_cons_of_mem _ hm1), hm2,
            vid, hv1, List.mem_cons_of_mem _ (List.mem_cons_of_mem _ hv2), hv3⟩
        · rw [List.mem_singleton] at hnew
          subst hnew
          refine ⟨List.mem_cons_self _ _, fun hmem0 => hurl (h.1 _ hmem0),
            v.id, rfl, List.mem_cons_of_mem _ (List.mem_cons_self _ _),
            fun hmem0 => hid (h.1 _ hmem0)⟩
      · rw [List.pairwise_append]
        refine ⟨h.2.2, List.pairwise_singleton _ _, ?_⟩
        intro a ha b hb
        rw [List.mem_singleton] at hb
        subst hb
        intro heq
        have heq' : a.url = "https://youtu.be/" ++ v.id := heq
        exact hurl (heq' ▸ (h.2.1 a ha).1)

theorem processShowResult_inv (today : String) (ex0 : List String)
    (st : Dataset × List String × List Appearance)
    (sr : (String × String × List String) × Except Unit (List YTVideo)) (h : YtInv ex0 st) :
    YtInv ex0 (processShowResult today st sr) := by
  unfold processShowResult
  cases hm : sr.2 with
  | error e => exact h
  | ok vids =>
    exact foldl_preserves (YtInv ex0) (processVideo today sr.1.1 sr.1.2.1)
      (fun s' v h' => processVideo_inv today sr.1.1 sr.1.2.1 ex0 s' v h') _ _ h

theorem search_youtube_shows_dedup (d : Dataset) (avail : Bool)
    (results : List (Except Unit (List YTVideo))) (today : String) :
    (∀ a ∈ (search_youtube_shows d avail results today).2,
      a.url ∉ get_existing_urls d ∧
      ∃ vid, a.url = "https://youtu.be/" ++ vid ∧ vid ∉ get_existing_urls d) ∧
    (search_youtube_shows d avail results today).2.Pairwise (fun a b => a.url ≠ b.url) := by
  unfold search_youtube_shows
  cases avail with
  | false => exact ⟨by simp, List.Pairwise.nil⟩
  | true =>
    rw [if_pos rfl]
    dsimp only
    have hInv : YtInv (get_existing_urls d)
        ((TV_SHOWS.zip results).foldl (processShowResult today)
          (d, get_existing_urls d, [])) :=
      foldl_preserves (YtInv (get_existing_urls d)) (processShowResult today)
        (fun s b h => processShowResult_inv today _ s b h) _ _
        ⟨fun u hu => hu, by simp, List.Pairwise.nil⟩
    refine ⟨?_, hInv.2.2⟩
    intro a ha
    obtain ⟨hm1, hm2, vid, hv1, hv2, hv3⟩ := hInv.2.1 a ha
    exact ⟨hm2, vid, hv1, hv3⟩

/-! ## C3: deduplication -/

/-- A news entry resolving to a YouTube short-form link. -/
def ytNewsEntryA : NewsEntry :=
  { title := "楊智鈞上健康節目", link := "https://news.google.com/a1",
    resolved := some "https://youtu.be/abc123", published := none }

/-- A news entry resolving to the same video's canonical watch link. -/
def ytNewsEntryB : NewsEntry :=
  { title := "楊智鈞受訪影片", link := "https://news.google.com/a2",
    resolved := some "https://www.youtube.com/watch?v=abc123", published := none }

/-- A dataset already holding the video under its short-form URL. -/
def shortFormDataset : Dataset :=
  { freshDataset with tv_shows :=
      [{ id := "tv-x", «show» := "健康2.0", show_network := "TVBS", title := "楊智鈞",
         date := "", url := "https://youtu.be/abc123", source := "manual",
         added_date := "2025-01-01" }] }

/-- C3 counterexample: the news stage's in-run index records only raw
URLs, so one run that discovers the same video under both recognized URL
shapes appends two records sharing the native video id; and a video
already stored under its short form is appended again when the news stage
rediscovers it under the watch form. -/
theorem claim_C3_counterexample :
    ((search_google_news freshDataset [Except.ok [ytNewsEntryA, ytNewsEntryB]]
        "2025-10-12").2.map (fun a => a.url)) =
      ["https://youtu.be/abc123", "https://www.youtube.com/watch?v=abc123"] ∧
    vidFromUrl "https://youtu.be/abc123" = some "abc123" ∧
    vidFromUrl "https://www.youtube.com/watch?v=abc123" = some "abc123" ∧
    "https://youtu.be/abc123" ∈ recordUrls shortFormDataset ∧
    ((search_google_news shortFormDataset [Except.ok [ytNewsEntryB]]
        "2025-10-12").2.map (fun a => a.url)) =
      ["https://www.youtube.com/watch?v=abc123"] :=
  ⟨rfl, rfl, rfl, by decide, rfl⟩

/-- C3 (amended): every stored non-empty URL — and the native video id the
index extracts from it under either recognized YouTube shape — is in the
dedup index; the news stage never appends an already-indexed URL and no
two news appends share a raw URL; the TV stage never appends a video whose
URL or native id is indexed (so a video stored in either shape is never
re-added there), and no two TV appends share a native id.  What the
original claim adds beyond this fails: the news stage can append the same
video twice under its two URL shapes (see the counterexample). -/
theorem claim_C3_deduplication :
    (∀ d u, u ∈ recordUrls d → u ≠ "" → u ∈ get_existing_urls d) ∧
    (∀ d u vid, u ∈ recordUrls d → u ≠ "" → vidFromUrl u = some vid →
      vid ∈ get_existing_urls d) ∧
    (∀ vid : String, containsSub vid "youtu.be/" = false → containsSub vid "?" = false →
      vidFromUrl ("https://youtu.be/" ++ vid) = some vid) ∧
    (∀ vid : String, containsSub vid "youtu.be/" = false → containsSub vid "v=" = false →
      containsSub vid "&" = false →
      vidFromUrl ("https://www.youtube.com/watch?v=" ++ vid) = some vid) ∧
    (∀ d feeds today,
      (∀ a ∈ (search_google_news d feeds today).2, a.url ∉ get_existing_urls d) ∧
      (search_google_news d feeds today).2.Pairwise (fun a b => a.url ≠ b.url)) ∧
    (∀ d avail results today,
      (∀ a ∈ (search_youtube_shows d avail results today).2,
        a.url ∉ get_existing_urls d ∧
        ∃ vid, a.url = "https://youtu.be/" ++ vid ∧ vid ∉ get_existing_urls d) ∧
      (search_youtube_shows d avail results today).2.Pairwise
        (fun a b => ∀ v w, a.url = "https://youtu.be/" ++ v →
          b.url = "https://youtu.be/" ++ w → v ≠ w)) := by
  refine ⟨?_, ?_, ?_, ?_, ?_, ?_⟩
  · intro d u hm hne
    exact (exUrls_foldl_of_mem u (recordUrls d) [] hm hne).1
  · intro d u vid hm hne hv
    exact (exUrls_foldl_of_mem u (recordUrls d) [] hm hne).2 vid hv
  · exact vidFromUrl_shortForm
  · exact vidFromUrl_watchForm
  · exact search_google_news_dedup
  · intro d avail results today
    obtain ⟨h1, h2⟩ := search_youtube_shows_dedup d avail results today
    refine ⟨h1, h2.imp ?_⟩
    intro a b hne v w hav hbv heq
    exact hne (by rw [hav, hbv, heq])

/-- C3 witness: the amended theorem's shape conjuncts at a concrete id,
and its index conjunct at a concrete stored record. -/
theorem claim_C3_witness :
    vidFromUrl "https://youtu.be/dQw4w9WgXcQ" = some "dQw4w9WgXcQ" ∧
    vidFromUrl "https://www.youtube.com/watch?v=dQw4w9WgXcQ" = some "dQw4w9WgXcQ" ∧
    "https://youtu.be/abc123" ∈ get_existing_urls shortFormDataset :=
  ⟨claim_C3_deduplication.2.2.1 "dQw4w9WgXcQ" rfl rfl,
   claim_C3_deduplication.2.2.2.1 "dQw4w9WgXcQ" rfl rfl rfl,
   claim_C3_deduplication.1 shortFormDataset "https://youtu.be/abc123" (by decide)
     (by decide)⟩

end MediaKit
